import Mathlib

/-!
Verification of the API gateway core (src/gateway/app.py): the per-service
circuit breaker (`check_circuit_breaker`, `record_failure`), the static
service registry, random endpoint selection, and the request-forwarding
handler `gateway_route`.

Modelling conventions:
* The Python dict `circuit_state : Dict[str, dict]` is an association list
  `CircuitState`; lookup and in-place update match dict semantics (first
  matching key).
* Clock readings (`asyncio.get_event_loop().time()`) are modelled as
  integers; the breaker logic only compares and subtracts times.
* The failure counter is a Python int, modelled as `Int` so that
  non-negativity is a provable invariant rather than a typing artifact.
* `random.choice(endpoints)` consumes one draw from an external RNG; the
  draw is an explicit `Nat` parameter and selection is by index modulo the
  list length.
* The outcome of the one outbound `http_client.request` call is an explicit
  `NetOutcome` parameter: either the backend responded (with a status code,
  headers, and the result of `response.json()` — `Except.error` when the
  body is not valid JSON and `.json()` raises), or the transport failed
  (`httpx.RequestError`) with a message.
* Raising `HTTPException` inside the handler's `try` block transfers
  control to the handler's own `except` clauses: `except httpx.RequestError`
  does not match an `HTTPException`, but the blanket `except Exception`
  does, so an `HTTPException` raised in the `try` body is re-raised as
  status 500 with detail `str(e)`, which for a starlette `HTTPException`
  renders as "<status_code>: <detail>". An exception raised from inside an
  `except` clause of the same `try` propagates out of the handler.
-/

/-- FAILURE_THRESHOLD = 5 (src/gateway/app.py line 26). -/
def FAILURE_THRESHOLD : Int := 5

/-- RESET_TIMEOUT = 60 seconds (src/gateway/app.py line 27). -/
def RESET_TIMEOUT : Int := 60

/-- One per-service entry of `circuit_state`: the dict
\x7b"failures": ..., "last_failure": ...\x7d. -/
structure BreakerEntry where
  failures : Int
  last_failure : Int
deriving DecidableEq

/-- The module-level `circuit_state` dict, as an association list keyed by
service name. -/
abbrev CircuitState := List (String × BreakerEntry)

/-- Dict lookup: `circuit_state[service]` / `service in circuit_state`. -/
def getEntry (st : CircuitState) (s : String) : Option BreakerEntry :=
  match st with
  | [] => none
  | (k, v) :: rest => if k = s then some v else getEntry rest s

/-- Dict in-place update `circuit_state[service] = e` (updates the existing
key, otherwise appends). -/
def setEntry (st : CircuitState) (s : String) (e : BreakerEntry) : CircuitState :=
  match st with
  | [] => [(s, e)]
  | (k, v) :: rest => if k = s then (k, e) :: rest else (k, v) :: setEntry rest s e

/-- Lines 59-60 and 73-74: `if service not in circuit_state:
circuit_state[service] = \x7b"failures": 0, "last_failure": 0\x7d`. -/
def ensureEntry (st : CircuitState) (s : String) : CircuitState :=
  match getEntry st s with
  | some _ => st
  | none => setEntry st s ⟨0, 0⟩

/-- The failure counter currently stored for `s` (0 when no entry exists,
matching the entry a first reference would create). -/
def getFailures (st : CircuitState) (s : String) : Int :=
  ((getEntry st s).getD ⟨0, 0⟩).failures

/-- The last-failure timestamp currently stored for `s` (0 when no entry
exists). -/
def getLastFailure (st : CircuitState) (s : String) : Int :=
  ((getEntry st s).getD ⟨0, 0⟩).last_failure

/-- `check_circuit_breaker` (lines 57-68), with the clock reading `now`
passed explicitly. Returns the admission verdict and the updated
`circuit_state`. -/
def check_circuit_breaker (s : String) (now : Int) (st : CircuitState) :
    Bool × CircuitState :=
  let st1 := ensureEntry st s
  let e := (getEntry st1 s).getD ⟨0, 0⟩
  if FAILURE_THRESHOLD ≤ e.failures then
    if RESET_TIMEOUT < now - e.last_failure then
      (true, setEntry st1 s ⟨0, e.last_failure⟩)
    else
      (false, st1)
  else
    (true, st1)

/-- `record_failure` (lines 71-77), with the clock reading `now` passed
explicitly: increments the counter and stamps the failure time. -/
def record_failure (s : String) (now : Int) (st : CircuitState) : CircuitState :=
  let st1 := ensureEntry st s
  let e := (getEntry st1 s).getD ⟨0, 0⟩
  setEntry st1 s ⟨e.failures + 1, now⟩

/-- SERVICE_REGISTRY (lines 20-23). -/
def SERVICE_REGISTRY : List (String × List String) :=
  [("service-a", ["http://service-a:8000"]),
   ("service-b", ["http://service-b:8001"])]

/-- Registry lookup: `service in SERVICE_REGISTRY` / `SERVICE_REGISTRY[service]`. -/
def lookupService (reg : List (String × List String)) (s : String) :
    Option (List String) :=
  match reg with
  | [] => none
  | (k, v) :: rest => if k = s then some v else lookupService rest s

/-- `random.choice(endpoints)` (line 108): the RNG draw is the explicit index
`i`; `random.choice` picks an element of a non-empty list (and raises on an
empty one, modelled as `none`). -/
def random_choice (l : List String) (i : Nat) : Option String :=
  l.get? (i % l.length)

/-- The result of calling `response.json()` on a backend response: the
decoded content, or the message of the `ValueError` it raises when the body
is not valid JSON. -/
inductive JsonBody where
  | ok (content : String)
  | error (msg : String)
deriving DecidableEq

/-- What the one outbound `http_client.request` call would produce: a backend
response (status code, the result of `response.json()`, headers) or a
transport-level failure (`httpx.RequestError`) with its message. -/
inductive NetOutcome where
  | response (status_code : Nat) (jsonBody : JsonBody)
      (headers : List (String × String))
  | transportError (msg : String)
deriving DecidableEq

/-- What the caller receives: a `JSONResponse` built from the backend's
response, or an `HTTPException(status_code, detail)`. -/
inductive GatewayResult where
  | jsonResponse (status_code : Nat) (content : String)
      (headers : List (String × String))
  | httpError (status_code : Nat) (detail : String)
deriving DecidableEq

/-- The HTTP status the caller sees. -/
def GatewayResult.status : GatewayResult → Nat
  | .jsonResponse c _ _ => c
  | .httpError c _ => c

/-- The observable outcome of one `gateway_route` invocation: the response,
the `circuit_state` left behind, whether the outbound network call was
attempted, and which endpoint (if any) was selected. -/
structure RouteOutcome where
  result : GatewayResult
  state : CircuitState
  network_called : Bool
  endpoint_used : Option String
deriving DecidableEq

/-- `str(e)` for a starlette `HTTPException`: "<status_code>: <detail>". -/
def httpExceptionStr (status_code : Nat) (detail : String) : String :=
  toString status_code ++ ": " ++ detail

/-- `gateway_route` (lines 86-153). `now_check` is the clock reading the
admission check sees (line 64), `now_fail` the one a failure recording sees
(line 77). `choice` is the RNG draw behind `random.choice`. `net` is the
outcome the transport would deliver for this request.

Control flow of the source: the `HTTPException(404)` of line 95 and the
`HTTPException(503)` of line 101, both raised inside the `try` block, are
caught by the blanket `except Exception` (line 151) — `HTTPException`
subclasses `Exception` — and re-raised as
`HTTPException(500, str(e))`. A failing `response.json()` (line 141) raises
a `ValueError`, likewise caught there and turned into a 500. Only the
`except httpx.RequestError` clause (line 146) answers 503: it records a
breaker failure and re-raises from inside the `except` clause, past the
blanket handler. -/
def gateway_route (service path : String) (choice : Nat) (net : NetOutcome)
    (now_check now_fail : Int) (st : CircuitState) : RouteOutcome :=
  match lookupService SERVICE_REGISTRY service with
  | none =>
      { result := GatewayResult.httpError 500
          (httpExceptionStr 404 ("Service \x27" ++ service ++ "\x27 not found"))
        state := st
        network_called := false
        endpoint_used := none }
  | some endpoints =>
      let r := check_circuit_breaker service now_check st
      if r.1 then
        match net with
        | NetOutcome.response status_code jsonBody headers =>
            match jsonBody with
            | JsonBody.ok content =>
                { result := GatewayResult.jsonResponse status_code content headers
                  state := r.2
                  network_called := true
                  endpoint_used := random_choice endpoints choice }
            | JsonBody.error msg =>
                { result := GatewayResult.httpError 500 msg
                  state := r.2
                  network_called := true
                  endpoint_used := random_choice endpoints choice }
        | NetOutcome.transportError msg =>
            { result := GatewayResult.httpError 503 msg
              state := record_failure service now_fail r.2
              network_called := true
              endpoint_used := random_choice endpoints choice }
      else
        { result := GatewayResult.httpError 500
            (httpExceptionStr 503
              ("Service \x27" ++ service ++ "\x27 is temporarily unavailable"))
          state := r.2
          network_called := false
          endpoint_used := none }

/-- One breaker-affecting event on a service: an admission check, a recorded
transport failure, or a successfully relayed backend response. The success
case leaves `circuit_state` untouched: the success path of `gateway_route`
(lines 128-144) performs no breaker mutation and no record-success operation
exists anywhere in the source. -/
inductive BreakerOp where
  | check (now : Int)
  | fail (now : Int)
  | success
deriving DecidableEq

/-- The effect of one `BreakerOp` on `circuit_state`. -/
def breakerStep (s : String) (st : CircuitState) (op : BreakerOp) : CircuitState :=
  match op with
  | BreakerOp.check now => (check_circuit_breaker s now st).2
  | BreakerOp.fail now => record_failure s now st
  | BreakerOp.success => st

/-- Running a sequence of breaker operations from the initial empty
`circuit_state` (line 28). -/
def runOps (s : String) (ops : List BreakerOp) : CircuitState :=
  ops.foldl (breakerStep s) []

/-- A burst of recorded failures at the given times. -/
def applyFailures (s : String) (ts : List Int) (st : CircuitState) : CircuitState :=
  ts.foldl (fun acc t => record_failure s t acc) st

/-- A sequence of admission checks at the given times: the list of verdicts
and the final `circuit_state`. -/
def admitRun (s : String) (ns : List Int) (st : CircuitState) :
    List Bool × CircuitState :=
  match ns with
  | [] => ([], st)
  | n :: rest =>
      let r := check_circuit_breaker s n st
      let rr := admitRun s rest r.2
      (r.1 :: rr.1, rr.2)

lemma getEntry_setEntry_self (st : CircuitState) (s : String) (e : BreakerEntry) :
    getEntry (setEntry st s e) s = some e := by
  induction st with
  | nil => simp [setEntry, getEntry]
  | cons kv rest ih =>
      obtain ⟨k, v⟩ := kv
      by_cases h : k = s
      · simp [setEntry, getEntry, h]
      · simp [setEntry, getEntry, h, ih]

lemma ensureEntry_of_some (st : CircuitState) (s : String) (e : BreakerEntry)
    (h : getEntry st s = some e) : ensureEntry st s = st := by
  simp [ensureEntry, h]

lemma ensureEntry_of_none (st : CircuitState) (s : String)
    (h : getEntry st s = none) : ensureEntry st s = setEntry st s ⟨0, 0⟩ := by
  simp [ensureEntry, h]

lemma getEntry_ensureEntry (st : CircuitState) (s : String) :
    getEntry (ensureEntry st s) s = some ((getEntry st s).getD ⟨0, 0⟩) := by
  cases h : getEntry st s with
  | none => rw [ensureEntry_of_none st s h, getEntry_setEntry_self]; rfl
  | some e => rw [ensureEntry_of_some st s e h, h]; rfl

lemma check_of_none (s : String) (now : Int) (st : CircuitState)
    (h : getEntry st s = none) :
    check_circuit_breaker s now st = (true, setEntry st s ⟨0, 0⟩) := by
  rw [check_circuit_breaker, ensureEntry_of_none st s h, getEntry_setEntry_self]
  norm_num [FAILURE_THRESHOLD]

lemma check_of_closed (s : String) (now : Int) (st : CircuitState)
    (e : BreakerEntry) (h : getEntry st s = some e)
    (hlt : e.failures < FAILURE_THRESHOLD) :
    check_circuit_breaker s now st = (true, st) := by
  rw [check_circuit_breaker, ensureEntry_of_some st s e h, h]
  simp [not_le.mpr hlt]

lemma check_of_open (s : String) (now : Int) (st : CircuitState)
    (e : BreakerEntry) (h : getEntry st s = some e)
    (hge : FAILURE_THRESHOLD ≤ e.failures)
    (hle : now - e.last_failure ≤ RESET_TIMEOUT) :
    check_circuit_breaker s now st = (false, st) := by
  rw [check_circuit_breaker, ensureEntry_of_some st s e h, h]
  simp [hge, not_lt.mpr hle]

lemma check_of_halfopen (s : String) (now : Int) (st : CircuitState)
    (e : BreakerEntry) (h : getEntry st s = some e)
    (hge : FAILURE_THRESHOLD ≤ e.failures)
    (hgt : RESET_TIMEOUT < now - e.last_failure) :
    check_circuit_breaker s now st = (true, setEntry st s ⟨0, e.last_failure⟩) := by
  rw [check_circuit_breaker, ensureEntry_of_some st s e h, h]
  simp [hge, hgt]

lemma getEntry_record_failure (s : String) (now : Int) (st : CircuitState) :
    getEntry (record_failure s now st) s = some ⟨getFailures st s + 1, now⟩ := by
  rw [record_failure]
  simp only [getEntry_ensureEntry, getEntry_setEntry_self, Option.getD_some]
  rfl

lemma getFailures_record_failure (s : String) (now : Int) (st : CircuitState) :
    getFailures (record_failure s now st) s = getFailures st s + 1 := by
  simp [getFailures, getEntry_record_failure]

lemma getLastFailure_record_failure (s : String) (now : Int) (st : CircuitState) :
    getLastFailure (record_failure s now st) s = now := by
  simp [getLastFailure, getEntry_record_failure]

/-- The admission check either leaves the stored failure counter as it was,
or performs the cooldown-expiry reset to 0 — which requires a tripped
counter and an expired cooldown. -/
lemma check_failures_cases (s : String) (now : Int) (st : CircuitState) :
    getFailures (check_circuit_breaker s now st).2 s = getFailures st s ∨
      (getFailures (check_circuit_breaker s now st).2 s = 0 ∧
        FAILURE_THRESHOLD ≤ getFailures st s ∧
        RESET_TIMEOUT < now - getLastFailure st s) := by
  cases h : getEntry st s with
  | none =>
      left
      rw [check_of_none s now st h]
      simp [getFailures, getEntry_setEntry_self, h]
  | some e =>
      by_cases hge : FAILURE_THRESHOLD ≤ e.failures
      · by_cases hgt : RESET_TIMEOUT < now - e.last_failure
        · right
          rw [check_of_halfopen s now st e h hge hgt]
          refine ⟨by simp [getFailures, getEntry_setEntry_self], ?_, ?_⟩
          · simpa [getFailures, h] using hge
          · simpa [getLastFailure, h] using hgt
        · left
          rw [check_of_open s now st e h hge (not_lt.mp hgt)]
      · left
        rw [check_of_closed s now st e h (not_le.mp hge)]

lemma getFailures_applyFailures (s : String) (ts : List Int) (st : CircuitState) :
    getFailures (applyFailures s ts st) s = getFailures st s + ts.length := by
  induction ts generalizing st with
  | nil => simp [applyFailures]
  | cons t rest ih =>
      show getFailures (applyFailures s rest (record_failure s t st)) s = _
      rw [ih, getFailures_record_failure, List.length_cons]
      push_cast
      ring

/-- While an entry stays tripped and within its cooldown, every admission
check in a row answers false and leaves `circuit_state` untouched. -/
lemma admitRun_all_false (s : String) (st : CircuitState) (e : BreakerEntry)
    (hent : getEntry st s = some e) (hge : FAILURE_THRESHOLD ≤ e.failures) :
    ∀ ns : List Int, (∀ n ∈ ns, n - e.last_failure ≤ RESET_TIMEOUT) →
      admitRun s ns st = (List.replicate ns.length false, st) := by
  intro ns
  induction ns with
  | nil => intro _; simp [admitRun]
  | cons n rest ih =>
      intro hns
      have hfalse := check_of_open s n st e hent hge (hns n (by simp))
      simp only [admitRun, hfalse]
      rw [ih (fun m hm => hns m (by simp [hm]))]
      simp [List.replicate_succ]

lemma breakerStep_nonneg (s : String) (st : CircuitState) (op : BreakerOp)
    (h : 0 ≤ getFailures st s) : 0 ≤ getFailures (breakerStep s st op) s := by
  cases op with
  | check t =>
      rcases check_failures_cases s t st with hc | hc
      · simp only [breakerStep]
        rw [hc]; exact h
      · simp only [breakerStep]
        rw [hc.1]
  | fail t =>
      have hrec := getFailures_record_failure s t st
      simp only [breakerStep]
      omega
  | success => simpa [breakerStep] using h

lemma runOps_nonneg (s : String) (ops : List BreakerOp) :
    0 ≤ getFailures (runOps s ops) s := by
  have key : ∀ (l : List BreakerOp) (st : CircuitState), 0 ≤ getFailures st s →
      0 ≤ getFailures (l.foldl (breakerStep s) st) s := by
    intro l
    induction l with
    | nil => intro st h; simpa using h
    | cons o rest ih => intro st h; exact ih _ (breakerStep_nonneg s st o h)
  exact key ops [] (by rfl)

example : check_circuit_breaker "svc" 0 [] = (true, [("svc", ⟨0, 0⟩)]) := by decide

example : check_circuit_breaker "svc" 110 [("svc", ⟨5, 100⟩)] =
    (false, [("svc", ⟨5, 100⟩)]) := by decide

example : check_circuit_breaker "svc" 161 [("svc", ⟨5, 100⟩)] =
    (true, [("svc", ⟨0, 100⟩)]) := by decide

example : record_failure "svc" 7 [("svc", ⟨2, 3⟩)] = [("svc", ⟨3, 7⟩)] := by decide

/-- C1: for every service name and clock reading, the admission check
behaves exactly as specified: a missing entry is created with zero failures
and the check answers true; `failures < FAILURE_THRESHOLD` answers true;
`failures ≥ FAILURE_THRESHOLD` with `now - last_failure ≤ RESET_TIMEOUT`
answers false; `failures ≥ FAILURE_THRESHOLD` with
`now - last_failure > RESET_TIMEOUT` resets the counter to 0 and answers
true. The trip comparison is `≥`, so the FAILURE_THRESHOLDth consecutive
failure already blocks traffic. -/
theorem check_circuit_breaker_spec (s : String) (now : Int) (st : CircuitState) :
    (getEntry st s = none →
        check_circuit_breaker s now st = (true, setEntry st s ⟨0, 0⟩)) ∧
    (∀ e : BreakerEntry, getEntry st s = some e →
        (e.failures < FAILURE_THRESHOLD →
            check_circuit_breaker s now st = (true, st)) ∧
        (FAILURE_THRESHOLD ≤ e.failures → now - e.last_failure ≤ RESET_TIMEOUT →
            check_circuit_breaker s now st = (false, st)) ∧
        (FAILURE_THRESHOLD ≤ e.failures → RESET_TIMEOUT < now - e.last_failure →
            check_circuit_breaker s now st =
              (true, setEntry st s ⟨0, e.last_failure⟩))) :=
  ⟨fun h => check_of_none s now st h,
   fun e h =>
     ⟨fun hlt => check_of_closed s now st e h hlt,
      fun hge hle => check_of_open s now st e h hge hle,
      fun hge hgt => check_of_halfopen s now st e h hge hgt⟩⟩

/-- C1 witness: a tripped entry within its cooldown is refused, at a
concrete input. -/
theorem check_circuit_breaker_spec_witness :
    check_circuit_breaker "svc" 110 [("svc", ⟨5, 100⟩)] =
      (false, [("svc", ⟨5, 100⟩)]) :=
  ((check_circuit_breaker_spec "svc" 110 [("svc", ⟨5, 100⟩)]).2
    ⟨5, 100⟩ (by decide)).2.1 (by decide) (by decide)

/-- C4: starting from any state whose counter is non-negative (the reachable
states), after FAILURE_THRESHOLD consecutive recorded failures — the last at
time `tlast` — every subsequent admission check whose clock reading `n`
satisfies `n - tlast ≤ RESET_TIMEOUT` answers false, and none of those
checks changes `circuit_state`. -/
theorem tripped_breaker_blocks_until_timeout
    (s : String) (st : CircuitState) (ts : List Int) (tlast : Int) (ns : List Int)
    (hinv : 0 ≤ getFailures st s)
    (hlen : (ts.length : Int) + 1 = FAILURE_THRESHOLD)
    (hns : ∀ n ∈ ns, n - tlast ≤ RESET_TIMEOUT) :
    admitRun s ns (record_failure s tlast (applyFailures s ts st)) =
      (List.replicate ns.length false,
        record_failure s tlast (applyFailures s ts st)) := by
  have hent : getEntry (record_failure s tlast (applyFailures s ts st)) s =
      some ⟨getFailures (applyFailures s ts st) s + 1, tlast⟩ :=
    getEntry_record_failure s tlast (applyFailures s ts st)
  have hsum := getFailures_applyFailures s ts st
  have hge : FAILURE_THRESHOLD ≤
      (⟨getFailures (applyFailures s ts st) s + 1, tlast⟩ : BreakerEntry).failures := by
    show FAILURE_THRESHOLD ≤ getFailures (applyFailures s ts st) s + 1
    omega
  exact admitRun_all_false s _ _ hent hge ns hns

/-- C4 witness: five failures at times 1..5 from the empty state, then
checks at times 10 and 60 (both within the 60-second window of the last
failure at time 5) both answer false. -/
theorem tripped_breaker_blocks_until_timeout_witness :
    admitRun "svc" [10, 60]
        (record_failure "svc" 5 (applyFailures "svc" [1, 2, 3, 4] [])) =
      (List.replicate 2 false,
        record_failure "svc" 5 (applyFailures "svc" [1, 2, 3, 4] [])) :=
  tripped_breaker_blocks_until_timeout "svc" [] [1, 2, 3, 4] 5 [10, 60]
    (by decide) (by decide) (by decide)

/-- C5: on a tripped entry (`failures ≥ FAILURE_THRESHOLD`) whose cooldown
has expired (`now - last_failure > RESET_TIMEOUT`), the next admission check
answers true and sets the failure counter to 0, and a further admission
check at any later reading also answers true without changing
`circuit_state` again. -/
theorem halfopen_probe_resets_then_closed
    (s : String) (st : CircuitState) (now now2 : Int) (e : BreakerEntry)
    (hent : getEntry st s = some e)
    (htrip : FAILURE_THRESHOLD ≤ e.failures)
    (hcool : RESET_TIMEOUT < now - e.last_failure) :
    (check_circuit_breaker s now st).1 = true ∧
    getFailures (check_circuit_breaker s now st).2 s = 0 ∧
    check_circuit_breaker s now2 (check_circuit_breaker s now st).2 =
      (true, (check_circuit_breaker s now st).2) := by
  have h1 := check_of_halfopen s now st e hent htrip hcool
  rw [h1]
  have hent2 : getEntry (setEntry st s ⟨0, e.last_failure⟩) s =
      some ⟨0, e.last_failure⟩ := getEntry_setEntry_self st s _
  refine ⟨rfl, by simp [getFailures, hent2], ?_⟩
  exact check_of_closed s now2 _ _ hent2 (by norm_num [FAILURE_THRESHOLD])

/-- C5 witness: entry tripped at time 0, probed at time 61 and again at
time 62. -/
theorem halfopen_probe_resets_then_closed_witness :
    (check_circuit_breaker "svc" 61 [("svc", ⟨5, 0⟩)]).1 = true ∧
    getFailures (check_circuit_breaker "svc" 61 [("svc", ⟨5, 0⟩)]).2 "svc" = 0 ∧
    check_circuit_breaker "svc" 62 (check_circuit_breaker "svc" 61 [("svc", ⟨5, 0⟩)]).2 =
      (true, (check_circuit_breaker "svc" 61 [("svc", ⟨5, 0⟩)]).2) :=
  halfopen_probe_resets_then_closed "svc" [("svc", ⟨5, 0⟩)] 61 62 ⟨5, 0⟩
    (by decide) (by decide) (by decide)

/-- C10: over any sequence of breaker operations from the initial empty
state the failure counter stays non-negative; a relayed success leaves
`circuit_state` untouched; on any invariant-satisfying state the counter
strictly increases only through a recorded failure; and the counter becomes
0 from a non-zero value only through an admission check on a tripped entry
whose cooldown has expired. -/
theorem breaker_counter_invariant
    (s : String) (ops : List BreakerOp) (st : CircuitState) (op : BreakerOp) :
    0 ≤ getFailures (runOps s ops) s ∧
    breakerStep s st BreakerOp.success = st ∧
    (0 ≤ getFailures st s →
      getFailures st s < getFailures (breakerStep s st op) s →
      ∃ t, op = BreakerOp.fail t) ∧
    (0 ≤ getFailures st s → getFailures st s ≠ 0 →
      getFailures (breakerStep s st op) s = 0 →
      ∃ t, op = BreakerOp.check t ∧ FAILURE_THRESHOLD ≤ getFailures st s ∧
        RESET_TIMEOUT < t - getLastFailure st s) := by
  refine ⟨runOps_nonneg s ops, rfl, ?_, ?_⟩
  · intro hinv hlt
    cases op with
    | success =>
        simp only [breakerStep] at hlt
        exact absurd hlt (lt_irrefl _)
    | fail t => exact ⟨t, rfl⟩
    | check t =>
        exfalso
        simp only [breakerStep] at hlt
        rcases check_failures_cases s t st with hc | hc
        · omega
        · have := hc.1
          omega
  · intro hinv hne hz
    cases op with
    | success =>
        simp only [breakerStep] at hz
        exact absurd hz hne
    | fail t =>
        exfalso
        have hrec := getFailures_record_failure s t st
        simp only [breakerStep] at hz
        omega
    | check t =>
        simp only [breakerStep] at hz
        rcases check_failures_cases s t st with hc | hc
        · exact absurd (hc ▸ hz) hne
        · exact ⟨t, rfl, hc.2.1, hc.2.2⟩

/-- C10 witness: a concrete run — one failure, one success, one check. -/
theorem breaker_counter_invariant_witness :
    0 ≤ getFailures
        (runOps "svc" [BreakerOp.fail 1, BreakerOp.success, BreakerOp.check 2]) "svc" :=
  (breaker_counter_invariant "svc"
    [BreakerOp.fail 1, BreakerOp.success, BreakerOp.check 2] [] BreakerOp.success).1

lemma lookupService_mem (reg : List (String × List String)) (s : String)
    (eps : List String) (h : lookupService reg s = some eps) :
    ∃ k, (k, eps) ∈ reg := by
  induction reg with
  | nil => simp [lookupService] at h
  | cons p rest ih =>
      obtain ⟨k, v⟩ := p
      by_cases hk : k = s
      · refine ⟨k, ?_⟩
        simp only [lookupService, if_pos hk, Option.some.injEq] at h
        subst h
        exact List.mem_cons_self _ _
      · simp only [lookupService, if_neg hk] at h
        obtain ⟨k2, hk2⟩ := ih h
        exact ⟨k2, List.mem_cons_of_mem _ hk2⟩

/-- C2 (behavior at the failing input): a request for a service absent from
SERVICE_REGISTRY answers status 500, not the claimed 404 — the
`HTTPException(404, "Service ... not found")` raised on line 95 is caught by
the handler's own blanket `except Exception` (line 151) and re-raised as
`HTTPException(500, str(e))`. The rest of the claim holds: `circuit_state`
is untouched, no endpoint is selected and no network call is attempted. -/
theorem unknown_service_yields_500 :
    gateway_route "unknown-svc" "foo" 0 (NetOutcome.transportError "ignored") 0 0 [] =
      { result := GatewayResult.httpError 500
          "404: Service \x27unknown-svc\x27 not found"
        state := []
        network_called := false
        endpoint_used := none } := by decide

/-- C3 (behavior at the failing input): with service-a tripped (5 failures,
last at time 100) and checked at time 110 (within the 60-second window), the
gateway answers status 500, not the claimed 503 — the `HTTPException(503,
"... temporarily unavailable")` raised on line 101 is caught by the blanket
`except Exception` (line 151) and re-raised as 500. The rest of the claim
holds: no network call is attempted, no endpoint is selected, and the
breaker entry is unchanged. -/
theorem open_breaker_yields_500 :
    gateway_route "service-a" "foo" 0 (NetOutcome.transportError "ignored") 110 110
        [("service-a", ⟨5, 100⟩)] =
      { result := GatewayResult.httpError 500
          "503: Service \x27service-a\x27 is temporarily unavailable"
        state := [("service-a", ⟨5, 100⟩)]
        network_called := false
        endpoint_used := none } := by decide

/-- C6: for every admitted request whose outbound call fails at the
transport level, the gateway records exactly one breaker failure for the
target service — the counter one above its post-admission value and the
last-failure timestamp set to the recording time — and answers 503 carrying
the transport error's description (the `except httpx.RequestError` clause
re-raises from inside the handler's `except`, past the blanket handler). -/
theorem transport_failure_records_once_and_503
    (service path : String) (choice : Nat) (msg : String) (now_check now_fail : Int)
    (st : CircuitState) (endpoints : List String)
    (hreg : lookupService SERVICE_REGISTRY service = some endpoints)
    (hok : (check_circuit_breaker service now_check st).1 = true) :
    gateway_route service path choice (NetOutcome.transportError msg) now_check now_fail st =
      { result := GatewayResult.httpError 503 msg
        state := record_failure service now_fail (check_circuit_breaker service now_check st).2
        network_called := true
        endpoint_used := random_choice endpoints choice } ∧
    getFailures (gateway_route service path choice (NetOutcome.transportError msg) now_check now_fail st).state service =
      getFailures (check_circuit_breaker service now_check st).2 service + 1 ∧
    getLastFailure (gateway_route service path choice (NetOutcome.transportError msg) now_check now_fail st).state service = now_fail := by
  have h1 : gateway_route service path choice (NetOutcome.transportError msg) now_check now_fail st =
      { result := GatewayResult.httpError 503 msg
        state := record_failure service now_fail (check_circuit_breaker service now_check st).2
        network_called := true
        endpoint_used := random_choice endpoints choice } := by
    simp only [gateway_route, hreg]
    simp [hok]
  refine ⟨h1, ?_, ?_⟩
  · rw [h1]
    exact getFailures_record_failure service now_fail _
  · rw [h1]
    exact getLastFailure_record_failure service now_fail _

/-- C6 witness: a transport failure on service-a from the empty state. -/
theorem transport_failure_records_once_and_503_witness :
    gateway_route "service-a" "p" 0 (NetOutcome.transportError "connection refused") 0 3 [] =
      { result := GatewayResult.httpError 503 "connection refused"
        state := record_failure "service-a" 3 (check_circuit_breaker "service-a" 0 []).2
        network_called := true
        endpoint_used := random_choice ["http://service-a:8000"] 0 } ∧
    getFailures (gateway_route "service-a" "p" 0 (NetOutcome.transportError "connection refused") 0 3 []).state "service-a" =
      getFailures (check_circuit_breaker "service-a" 0 []).2 "service-a" + 1 ∧
    getLastFailure (gateway_route "service-a" "p" 0 (NetOutcome.transportError "connection refused") 0 3 []).state "service-a" = 3 :=
  transport_failure_records_once_and_503 "service-a" "p" 0 "connection refused" 0 3 []
    ["http://service-a:8000"] (by decide) (by decide)

/-- C7: for every admitted request where the backend returns a response —
whatever its status code and whether or not its body parses as JSON — the
`circuit_state` left behind is exactly the post-admission state (the
response handling never calls `record_failure`), and the stored failure
counter does not exceed its pre-request value. -/
theorem backend_response_leaves_breaker_unchanged
    (service path : String) (choice : Nat) (status_code : Nat) (body : JsonBody)
    (headers : List (String × String)) (now_check now_fail : Int)
    (st : CircuitState) (endpoints : List String)
    (hreg : lookupService SERVICE_REGISTRY service = some endpoints)
    (hok : (check_circuit_breaker service now_check st).1 = true)
    (hinv : 0 ≤ getFailures st service) :
    (gateway_route service path choice (NetOutcome.response status_code body headers) now_check now_fail st).state =
      (check_circuit_breaker service now_check st).2 ∧
    getFailures (gateway_route service path choice (NetOutcome.response status_code body headers) now_check now_fail st).state service ≤
      getFailures st service := by
  have h1 : (gateway_route service path choice (NetOutcome.response status_code body headers) now_check now_fail st).state =
      (check_circuit_breaker service now_check st).2 := by
    cases body with
    | ok content =>
        simp only [gateway_route, hreg]
        simp [hok]
    | error m =>
        simp only [gateway_route, hreg]
        simp [hok]
  refine ⟨h1, ?_⟩
  rw [h1]
  rcases check_failures_cases service now_check st with hc | hc
  · rw [hc]
  · rw [hc.1]
    exact hinv

/-- C7 witness: a backend 404 on service-a from the empty state leaves the
post-admission breaker state in place. -/
theorem backend_response_leaves_breaker_unchanged_witness :
    (gateway_route "service-a" "p" 0
        (NetOutcome.response 404 (JsonBody.ok "body") []) 0 0 []).state =
      (check_circuit_breaker "service-a" 0 []).2 ∧
    getFailures (gateway_route "service-a" "p" 0
        (NetOutcome.response 404 (JsonBody.ok "body") []) 0 0 []).state "service-a" ≤
      getFailures [] "service-a" :=
  backend_response_leaves_breaker_unchanged "service-a" "p" 0 404 (JsonBody.ok "body")
    [] 0 0 [] ["http://service-a:8000"] (by decide) (by decide) (by decide)

/-- C8 counterexample: an admitted request to service-a whose backend
responds 200 with a body that is not valid JSON — `response.json()` on line
141 raises, the blanket `except Exception` turns it into a 500 — so the
caller does not receive the backend's own status code: the claim as stated
fails at this input. -/
theorem backend_nonjson_not_passed_through :
    ¬ ((gateway_route "service-a" "p" 0
          (NetOutcome.response 200
            (JsonBody.error "Expecting value: line 1 column 1 (char 0)") [])
          0 0 []).result.status = 200) ∧
    (gateway_route "service-a" "p" 0
        (NetOutcome.response 200
          (JsonBody.error "Expecting value: line 1 column 1 (char 0)") [])
        0 0 []).result =
      GatewayResult.httpError 500 "Expecting value: line 1 column 1 (char 0)" := by
  decide

/-- C8 (amended): for every admitted request where the backend returns a
response whose body parses as JSON, the gateway surfaces the backend's own
status code, the decoded body content, and the backend's headers to the
caller. -/
theorem backend_json_response_passthrough
    (service path : String) (choice : Nat) (status_code : Nat) (content : String)
    (headers : List (String × String)) (now_check now_fail : Int)
    (st : CircuitState) (endpoints : List String)
    (hreg : lookupService SERVICE_REGISTRY service = some endpoints)
    (hok : (check_circuit_breaker service now_check st).1 = true) :
    (gateway_route service path choice
        (NetOutcome.response status_code (JsonBody.ok content) headers) now_check now_fail st).result =
      GatewayResult.jsonResponse status_code content headers := by
  simp only [gateway_route, hreg]
  simp [hok]

/-- C8 witness: a backend 418 with JSON body and a header is relayed
as-is. -/
theorem backend_json_response_passthrough_witness :
    (gateway_route "service-b" "q" 7
        (NetOutcome.response 418 (JsonBody.ok "data")
          [("x-backend", "yes")]) 0 0 []).result =
      GatewayResult.jsonResponse 418 "data" [("x-backend", "yes")] :=
  backend_json_response_passthrough "service-b" "q" 7 418 "data"
    [("x-backend", "yes")] 0 0 [] ["http://service-b:8001"] (by decide) (by decide)

/-- C9: for every service present in SERVICE_REGISTRY the configured
endpoint list is non-empty, `random.choice` over it always yields an element
of that list, and over a singleton list it always yields that endpoint. -/
theorem endpoint_selection_safe (s : String) (endpoints : List String)
    (hreg : lookupService SERVICE_REGISTRY s = some endpoints) :
    endpoints ≠ [] ∧
    (∀ i : Nat, ∃ e, random_choice endpoints i = some e ∧ e ∈ endpoints) ∧
    (∀ x : String, endpoints = [x] → ∀ i : Nat, random_choice endpoints i = some x) := by
  have hne : endpoints ≠ [] := by
    obtain ⟨k, hk⟩ := lookupService_mem _ _ _ hreg
    simp only [SERVICE_REGISTRY, List.mem_cons, List.not_mem_nil, or_false,
      Prod.mk.injEq] at hk
    rcases hk with ⟨-, rfl⟩ | ⟨-, rfl⟩ <;> simp
  have hlen : 0 < endpoints.length := List.length_pos.mpr hne
  refine ⟨hne, ?_, ?_⟩
  · intro i
    have hlt : i % endpoints.length < endpoints.length := Nat.mod_lt _ hlen
    exact ⟨endpoints.get ⟨i % endpoints.length, hlt⟩,
      by simp [random_choice, List.get?_eq_get hlt], List.get_mem _ _ _⟩
  · rintro x rfl i
    simp [random_choice, Nat.mod_one]

/-- C9 witness: the single configured endpoint of service-a is always the
one selected. -/
theorem endpoint_selection_safe_witness :
    (["http://service-a:8000"] : List String) ≠ [] ∧
    (∀ i : Nat, ∃ e, random_choice ["http://service-a:8000"] i = some e ∧
      e ∈ (["http://service-a:8000"] : List String)) ∧
    (∀ x : String, (["http://service-a:8000"] : List String) = [x] →
      ∀ i : Nat, random_choice ["http://service-a:8000"] i = some x) :=
  endpoint_selection_safe "service-a" ["http://service-a:8000"] (by decide)
